import Mathlib

/-!
Shallow embedding of `src/make_wrappers.py` (toolchain-arch-wrappers).

The data tables are transcribed verbatim.  Each `re.sub` call is embedded as a
specialized string function (one per pattern, with the pattern cited in its
doc comment).  The filesystem is an explicit map from paths to artifacts, the
PATH lookup (`shutil.which`) is an oracle parameter, and Python exceptions are
explicit error values threaded through the driver loop.
-/

set_option maxRecDepth 100000

namespace MakeWrappers

/-- Python exceptions the embedded code can raise: `AttributeError` (reading
`config.arch_info` when it was never assigned), `KeyError` (dict indexing),
`TypeError` (`os.symlink(None, ...)`). -/
inductive PyErr
  | attributeError
  | keyError
  | typeError
deriving DecidableEq, BEq, Repr

/-- A generated wrapper artifact: an executable script (content as written;
the chmod at line 230 grants execute permission on every script) or a
symbolic link with the given target. -/
inductive Artifact
  | script (content : String)
  | symlink (target : String)
deriving DecidableEq, BEq, Repr

/-- The command-line configuration (argparse fields `arch`, `tools`,
`absolute`, `symlinks`, lines 251-256).  `tools = []` models "no tools
given": argparse leaves the default `None` and `config.tools or TOOLS`
treats `None` and an empty list alike. -/
structure Config where
  arch : String
  tools : List String
  absolute : Bool
  symlinks : Bool

/-- Filesystem state: each path holds an artifact or nothing. -/
abbrev FS := String → Option Artifact

/-- PATH-lookup oracle standing for `shutil.which`; `none` models the
Python `None` returned when the binary is not found. -/
abbrev Which := String → Option String

/-- Overwrite one path.  Models `os.remove` (value `none`; a missing file is
not an error, matching the `except FileNotFoundError: pass` at 207-210) and
file or symlink creation (value `some`). -/
def fsSet (fs : FS) (p : String) (a : Option Artifact) : FS :=
  fun q => if q = p then a else fs q

/-- Python dict lookup (`d[k]` / `d.get(k)`): the value at the key, `none`
when absent.  The embedded tables have no duplicate keys. -/
def dictGet {β : Type} (d : List (String × β)) (k : String) : Option β :=
  match d with
  | [] => none
  | (k2, v) :: rest => if k = k2 then some v else dictGet rest k

/-- Python `'%s' % x` where `x` is a string or `None`: `None` formats as
the four characters `None`. -/
def pyStr (x : Option String) : String :=
  match x with
  | some s => s
  | none => "None"

/-- Leftmost, non-overlapping replacement of every occurrence of a literal
(metacharacter-free) pattern, exactly as `re.sub` performs it for such
patterns: scan left to right, and resume scanning after each replacement.
The second argument counts characters of an already-replaced occurrence
still to be skipped (it starts at 0); structural recursion on the text
keeps the definition kernel-reducible.  Only called with non-empty
patterns. -/
def replaceList (pat repl : List Char) : List Char → Nat → List Char
  | [], _ => []
  | c :: rest, 0 =>
    if pat.isPrefixOf (c :: rest) then
      repl ++ replaceList pat repl rest (pat.length - 1)
    else
      c :: replaceList pat repl rest 0
  | _ :: rest, k + 1 => replaceList pat repl rest k

/-- `re.sub(pat, repl, s)` for a literal pattern. -/
def strReplace (s pat repl : String) : String :=
  String.mk (replaceList pat.toList repl.toList s.toList 0)

/-- One character of the `re` character class `[0-9.]`. -/
def isVerChar (c : Char) : Bool := c.isDigit || c == '.'

/-- `re.sub` of the first TOOL_FIXUPS pattern (line 91): `-[0-9.]\+$`,
replacement `''`.  In a non-raw Python string `\+` keeps the backslash, and
the `re` module reads `\+` as an escaped literal plus sign, so the pattern
is: a dash, exactly ONE digit-or-dot character, a literal `+`, anchored at
the end (`$` also matches just before a single trailing newline).  It is not
the one-or-more quantifier the `# remove version numbers` comment intends. -/
def toolFixupVersion (s : String) : String :=
  match s.toList.reverse with
  | '+' :: c :: '-' :: rest =>
    if isVerChar c then String.mk rest.reverse else s
  | '\n' :: '+' :: c :: '-' :: rest =>
    if isVerChar c then String.mk (rest.reverse ++ ['\n']) else s
  | _ => s

/-- `re.sub` of the second TOOL_FIXUPS pattern (line 95):
`^(gold|ld\.(bfd|gold))$`, replacement `'ld'`.  A fully anchored
alternation; `$` may also sit before one trailing newline. -/
def toolFixupLd (s : String) : String :=
  if s == "gold" || s == "ld.bfd" || s == "ld.gold" then "ld"
  else if s == "gold\n" || s == "ld.bfd\n" || s == "ld.gold\n" then "ld\n"
  else s

/-- `re.sub` of the third TOOL_FIXUPS pattern (line 96):
`^gcc-(ar|nm|ranlib)$`, replacement `lambda m: m.group(1)`. -/
def toolFixupGccAlias (s : String) : String :=
  if s == "gcc-ar" then "ar"
  else if s == "gcc-nm" then "nm"
  else if s == "gcc-ranlib" then "ranlib"
  else if s == "gcc-ar\n" then "ar\n"
  else if s == "gcc-nm\n" then "nm\n"
  else if s == "gcc-ranlib\n" then "ranlib\n"
  else s

/-- TOOL_FIXUPS (lines 89-97): the ordered tool-name substitution rules;
each rule sees the previous rule's output. -/
def TOOL_FIXUPS : List (String → String) :=
  [toolFixupVersion, toolFixupLd, toolFixupGccAlias]

/-- `re.sub('-pc-', '-', s)` (line 171). -/
def archFixupPc (s : String) : String := strReplace s "-pc-" "-"

/-- `re.sub('-unknown-', '-', s)` (line 172). -/
def archFixupUnknown (s : String) : String := strReplace s "-unknown-" "-"

/-- `re.sub('^i[456]86-', 'i386-', s)` (line 174): anchored at the start,
so at most one occurrence, the five-character leading `iN86-`. -/
def archFixupI386 (s : String) : String :=
  match s.toList with
  | 'i' :: c :: '8' :: '6' :: '-' :: rest =>
    if c == '4' || c == '5' || c == '6' then
      String.mk ('i' :: '3' :: '8' :: '6' :: '-' :: rest)
    else s
  | _ => s

/-- ARCH_FIXUPS (lines 170-175). -/
def ARCH_FIXUPS : List (String → String) :=
  [archFixupPc, archFixupUnknown, archFixupI386]

/-- `apply_fixups` (lines 197-200): fold the substitution rules over the
string, in order. -/
def apply_fixups (s : String) (fixups : List (String → String)) : String :=
  match fixups with
  | [] => s
  | f :: rest => apply_fixups (f s) rest

/-- TOOLS (lines 10-82). -/
def TOOLS : List String :=
  ["accel-nvptx-none-gcc", "addr2line", "ar", "as", "c++filt", "cpp", "dwp",
   "elfedit", "g++", "gappletviewer", "gc-analyze", "gcc", "gcc-ar",
   "gcc-nm", "gcc-ranlib", "gccbrig", "gccgo", "gcj", "gcj-dbtool",
   "gcj-wrapper", "gcjh", "gcov", "gcov-dump", "gcov-tool", "gdc",
   "gfortran", "gij", "gjar", "gjarsigner", "gjavah", "gjdoc", "gkeytool",
   "gnat", "gnatbind", "gnatchop", "gnatclean", "gnatfind", "gnatgcc",
   "gnathtml", "gnative2ascii", "gnatkr", "gnatlink", "gnatls", "gnatmake",
   "gnatname", "gnatprep", "gnatxref", "go", "gofmt", "gold", "gorbd",
   "gprof", "grmic", "grmid", "grmiregistry", "gserialver", "gtnameserv",
   "jcf-dump", "jv-convert", "ld", "ld.bfd", "ld.gold", "nm", "objcopy",
   "objdump", "pkg-config", "ranlib", "readelf", "size", "strings", "strip"]

/-- BLACKLIST (lines 84-87). -/
def BLACKLIST : List String := ["accel-nvptx-none-gcc", "pkg-config"]

/-- FLAGS_INFO (lines 101-168).  `none` is the Python `None` ("untested, may
cause problems"); `some ""` means "nothing needed"; `some name` names the
flag set inside the arch info dict. -/
def FLAGS_INFO : List (String × Option String) :=
  [("addr2line", some ""),
   ("ar", some ""),
   ("as", none),
   ("c++filt", some ""),
   ("cpp", some "gcc_flags"),
   ("dwp", some ""),
   ("elfedit", some ""),
   ("g++", some "gcc_flags"),
   ("gappletviewer", none),
   ("gc-analyze", none),
   ("gcc", some "gcc_flags"),
   ("gcc-ar", some ""),
   ("gcc-nm", some ""),
   ("gcc-ranlib", some ""),
   ("gccbrig", none),
   ("gccgo", none),
   ("gcj", none),
   ("gcj-dbtool", none),
   ("gcj-wrapper", none),
   ("gcjh", none),
   ("gcov", none),
   ("gcov-dump", none),
   ("gcov-tool", none),
   ("gdc", some "gcc_flags"),
   ("gfortran", some "gcc_flags"),
   ("gij", none),
   ("gjar", none),
   ("gjarsigner", none),
   ("gjavah", none),
   ("gjdoc", none),
   ("gkeytool", none),
   ("gnat", none),
   ("gnatbind", none),
   ("gnatchop", none),
   ("gnatclean", none),
   ("gnatfind", none),
   ("gnatgcc", none),
   ("gnathtml", none),
   ("gnative2ascii", none),
   ("gnatkr", none),
   ("gnatlink", none),
   ("gnatls", none),
   ("gnatmake", none),
   ("gnatname", none),
   ("gnatprep", none),
   ("gnatxref", none),
   ("go", none),
   ("gofmt", none),
   ("gorbd", none),
   ("gprof", none),
   ("grmic", none),
   ("grmid", none),
   ("grmiregistry", none),
   ("gserialver", none),
   ("gtnameserv", none),
   ("jcf-dump", none),
   ("jv-convert", none),
   ("ld", none),
   ("nm", some ""),
   ("objcopy", none),
   ("objdump", some ""),
   ("ranlib", some ""),
   ("readelf", some ""),
   ("size", some ""),
   ("strings", some ""),
   ("strip", some "")]

/-- ARCHES (lines 177-186): each entry is the Python dict for that arch,
holding the `wraps` key and the named flag sets. -/
def ARCHES : List (String × List (String × String)) :=
  [("i386-linux-gnu",
    [("wraps", "x86_64-linux-gnu"), ("gcc_flags", "-m32")]),
   ("x86_64-linux-gnux32",
    [("wraps", "x86_64-linux-gnu"), ("gcc_flags", "-mx32")])]

/-- `safe_msg` (lines 189-190). -/
def safe_msg (tool : String) : String :=
  "# tool \"" ++ tool ++ "\" is believed to be safe"

/-- The characters `pipes.quote` considers shell-safe: ASCII alphanumerics
plus `@%_-+=:,./`. -/
def pipeSafeChar (c : Char) : Bool :=
  c.isAlphanum || c == '@' || c == '%' || c == '_' || c == '-' || c == '+' ||
    c == '=' || c == ':' || c == ',' || c == '.' || c == '/'

/-- `pipes.quote`: the string unchanged when every character is shell-safe
(the empty string becomes a pair of single quotes), otherwise the string
wrapped in single quotes with every embedded single quote escaped. -/
def pipes_quote (s : String) : String :=
  if s.toList.all pipeSafeChar then
    if s == "" then "\x27\x27" else s
  else
    "\x27" ++ strReplace s "\x27" "\x27\"\x27\"\x27" ++ "\x27"

/-- `warning_msg` (lines 192-194). -/
def warning_msg (tool : String) : String :=
  "echo " ++
    pipes_quote ("Warning: untested tool \"" ++ tool ++
      "\". Please report your results to https://github.com/o11c/toolchain-arch-wrappers") ++
    " >&2"

/-- The script body written at lines 231-235:
`'#!/bin/sh\n%s\nexec %s %s "$@"\n' % (warning, executable, flags)`.
`executable` is optional because `shutil.which` may have produced `None`,
which `%s` formats as the text `None`. -/
def scriptContent (warning : String) (executable : Option String) (flags : String) : String :=
  "#!/bin/sh\n" ++ warning ++ "\nexec " ++ pyStr executable ++ " " ++ flags ++ " \"$@\"\n"

/-- `wrap_tool` (lines 203-235).  `pfx` is `config.prefix`; `info?` is
`config.arch_info`, with `none` modelling the attribute never having been
assigned (reading it then raises `AttributeError`, before anything touches
the filesystem).  Returns the new filesystem and the uncaught exception, if
any; the `let tool := ...` shadowing mirrors the reassignment at line 206,
so everything after that line (blacklist test, classification, warning
text) sees the canonical name, while `filename` and `executable` were
already built from the original name. -/
def wrap_tool (tool : String) (pfx : String)
    (info? : Option (List (String × String))) (cfg : Config) (which : Which)
    (fs : FS) : FS × Option PyErr :=
  let filename := "bin/" ++ pfx ++ "-" ++ tool
  match info? with
  | none => (fs, some PyErr.attributeError)
  | some info =>
    match dictGet info "wraps" with
    | none => (fs, some PyErr.keyError)
    | some wraps =>
      let executable := wraps ++ "-" ++ tool
      let tool := apply_fixups tool TOOL_FIXUPS
      let fs := fsSet fs filename none
      if BLACKLIST.contains tool then (fs, none)
      else
        let flags_var : Option String := (dictGet FLAGS_INFO tool).join
        let fw : Except PyErr (String × String) :=
          match flags_var with
          | some fv =>
            if fv == "" then Except.ok ("", safe_msg tool)
            else
              match dictGet info fv with
              | none => Except.error PyErr.keyError
              | some fl => Except.ok (fl, safe_msg tool)
          | none => Except.ok ("", warning_msg tool)
        match fw with
        | Except.error e => (fs, some e)
        | Except.ok (flags, warning) =>
          let executable :=
            if cfg.absolute || cfg.symlinks then which executable
            else some executable
          if cfg.symlinks && (flags == "") && flags_var.isSome then
            match executable with
            | none => (fs, some PyErr.typeError)
            | some target => (fsSet fs filename (some (Artifact.symlink target)), none)
          else
            (fsSet fs filename (some (Artifact.script (scriptContent warning executable flags))), none)

/-- The `for tool in config.tools or TOOLS` loop at 247-248: an uncaught
exception from `wrap_tool` aborts the remainder of the loop. -/
def wrapLoop (pfx : String) (info? : Option (List (String × String)))
    (cfg : Config) (which : Which) : List String → FS → FS × Option PyErr
  | [], fs => (fs, none)
  | t :: ts, fs =>
    let r := wrap_tool t pfx info? cfg which fs
    match r.2 with
    | none => wrapLoop pfx info? cfg which ts r.1
    | some e => (r.1, some e)

/-- What one run leaves behind: lines printed to stdout, the final
filesystem, and the uncaught exception if the run crashed. -/
structure RunResult where
  output : List String
  fs : FS
  err : Option PyErr

/-- `wrap` (lines 238-248).  `config.prefix` keeps the original arch,
`config.arch` is normalized and looked up; on a missing table entry the
code prints `Arch ... not found` and continues with `config.arch_info`
never assigned, so the loop still runs (and the first `wrap_tool` call
raises `AttributeError`). -/
def wrap (cfg : Config) (which : Which) (fs : FS) : RunResult :=
  let pfx := cfg.arch
  let arch := apply_fixups cfg.arch ARCH_FIXUPS
  let info? := dictGet ARCHES arch
  let out : List String :=
    match info? with
    | none => ["Arch " ++ arch ++ " not found"]
    | some _ => []
  let tools := match cfg.tools with | [] => TOOLS | ts => ts
  let r := wrapLoop pfx info? cfg which tools fs
  RunResult.mk out r.1 r.2

/-- The wrapper path `wrap_tool` computes for a tool (line 204). -/
def toolPath (pfx tool : String) : String := "bin/" ++ pfx ++ "-" ++ tool

/-- The artifact (or absence) a successful `wrap_tool` leaves at the tool's
wrapper path; it does not depend on the prior filesystem, so it can be read
off a run over the empty filesystem. -/
def toolFinal (tool pfx : String) (info? : Option (List (String × String)))
    (cfg : Config) (which : Which) : Option Artifact :=
  (wrap_tool tool pfx info? cfg which (fun _ => none)).1 (toolPath pfx tool)

theorem fsSet_fsSet (fs : FS) (p : String) (a b : Option Artifact) :
    fsSet (fsSet fs p a) p b = fsSet fs p b := by
  funext q
  by_cases h : q = p <;> simp [fsSet, h]

theorem fsSet_same (fs : FS) (p : String) (a : Option Artifact) :
    fsSet fs p a p = a := by
  simp [fsSet]

theorem dictGet_mem {β : Type} (d : List (String × β)) (k : String) (v : β)
    (h : dictGet d k = some v) : (k, v) ∈ d := by
  induction d with
  | nil => simp [dictGet] at h
  | cons hd tl ih =>
    obtain ⟨k2, v2⟩ := hd
    by_cases hk : k = k2
    · subst hk
      simp [dictGet] at h
      subst h
      exact List.mem_cons_self _ _
    · simp [dictGet, hk] at h
      exact List.mem_cons_of_mem _ (ih h)

/-- Every known-safe entry of FLAGS_INFO carries either the empty flag
string or the flag-set name `gcc_flags`. -/
theorem flagsInfo_value_cases (k fv : String)
    (h : dictGet FLAGS_INFO k = some (some fv)) : fv = "" ∨ fv = "gcc_flags" := by
  have hm := dictGet_mem FLAGS_INFO k (some fv) h
  have hall : ∀ p ∈ FLAGS_INFO,
      (match p.2 with
       | some v => v == "" || v == "gcc_flags"
       | none => true) = true := by decide
  have := hall (k, some fv) hm
  simp only [beq_iff_eq, Bool.or_eq_true] at this
  exact this

/-- Every ARCHES row is one of the two concrete dicts of the table. -/
theorem arches_info_cases (a : String) (info : List (String × String))
    (h : dictGet ARCHES a = some info) :
    info = [("wraps", "x86_64-linux-gnu"), ("gcc_flags", "-m32")] ∨
    info = [("wraps", "x86_64-linux-gnu"), ("gcc_flags", "-mx32")] := by
  have hm := dictGet_mem ARCHES a info h
  have hall : ∀ p ∈ ARCHES,
      p.2 = [("wraps", "x86_64-linux-gnu"), ("gcc_flags", "-m32")] ∨
      p.2 = [("wraps", "x86_64-linux-gnu"), ("gcc_flags", "-mx32")] := by decide
  exact hall (a, info) hm

/-- C2: the claim says the normalizer strips a trailing dash-digits-and-dots
version suffix, so that "gcc-7.3.1" normalizes like "gcc".  The code's first
fixup pattern `-[0-9.]\+$` contains `\+`, which the `re` module reads as a
literal plus sign (the string is not raw, so the backslash survives), so the
rule only rewrites strings ending in a literal `+`; "gcc-7.3.1" passes
through unchanged and differs from the normalization of "gcc". -/
theorem C2_version_suffix_bug :
    apply_fixups "gcc-7.3.1" TOOL_FIXUPS = "gcc-7.3.1" ∧
    apply_fixups "gcc" TOOL_FIXUPS = "gcc" ∧
    (apply_fixups "gcc-7.3.1" TOOL_FIXUPS == apply_fixups "gcc" TOOL_FIXUPS) = false := by
  decide

/-- C8: architecture resolution normalizes the triple through the ordered
ARCH_FIXUPS (drop `-pc-`, drop `-unknown-`, rewrite leading `i[456]86-` to
`i386-`) and then looks it up exactly in ARCHES; "i686-pc-linux-gnu"
resolves to the x86_64-linux-gnu row with gcc flags "-m32", and
"x86_64-linux-gnux32" to the x86_64-linux-gnu row with gcc flags "-mx32". -/
theorem C8_arch_resolution :
    (apply_fixups "i686-pc-linux-gnu" ARCH_FIXUPS = "i386-linux-gnu" ∧
      dictGet ARCHES "i386-linux-gnu" =
        some [("wraps", "x86_64-linux-gnu"), ("gcc_flags", "-m32")]) ∧
    (apply_fixups "x86_64-linux-gnux32" ARCH_FIXUPS = "x86_64-linux-gnux32" ∧
      dictGet ARCHES "x86_64-linux-gnux32" =
        some [("wraps", "x86_64-linux-gnu"), ("gcc_flags", "-mx32")]) := by
  decide

/-- C4: the claim says a failed search-path lookup in absolute/symlink mode
is an explicit per-tool error and no wrapper referencing an unresolved
executable is emitted.  In the code, `shutil.which` returning `None` flows
into the `'exec %s %s ...' % (executable, flags)` format, so with
`--absolute` and the wrapped binary absent the run reports no error and
writes a script whose exec line invokes the literal text `None`. -/
theorem C4_missing_executable_bug :
    ((wrap_tool "gcc" "x86_64-linux-gnux32"
        (some [("wraps", "x86_64-linux-gnu"), ("gcc_flags", "-mx32")])
        (Config.mk "x86_64-linux-gnux32" ["gcc"] true false)
        (fun _ => none) (fun _ => none)).2 = none) ∧
    ((wrap_tool "gcc" "x86_64-linux-gnux32"
        (some [("wraps", "x86_64-linux-gnu"), ("gcc_flags", "-mx32")])
        (Config.mk "x86_64-linux-gnux32" ["gcc"] true false)
        (fun _ => none) (fun _ => none)).1 "bin/x86_64-linux-gnux32-gcc" =
      some (Artifact.script "#!/bin/sh\n# tool \"gcc\" is believed to be safe\nexec None -mx32 \"$@\"\n")) := by
  decide

/-- C3 counterexample: the claim as stated says the warning line of an
unknown tool's script identifies the tool by its original name.  For the
requested tool "gold" (original name), normalization yields "ld", whose
classification is Unknown, and the emitted script's warning line is
`warning_msg "ld"`: it names "ld", not the original "gold" (the two warning
lines differ, and "ld" differs from "gold"). -/
theorem C3_warning_uses_canonical_name_counterexample :
    ((wrap_tool "gold" "x86_64-linux-gnux32"
        (some [("wraps", "x86_64-linux-gnu"), ("gcc_flags", "-mx32")])
        (Config.mk "x86_64-linux-gnux32" ["gold"] false false)
        (fun _ => none) (fun _ => none)).1 "bin/x86_64-linux-gnux32-gold" =
      some (Artifact.script (scriptContent (warning_msg "ld")
        (some "x86_64-linux-gnu-gold") ""))) ∧
    (warning_msg "ld" == warning_msg "gold") = false ∧
    (apply_fixups "gold" TOOL_FIXUPS == "gold") = false := by
  decide

/-- C10 counterexample: tool-name normalization is not idempotent on all
strings.  The first fixup removes one trailing `-<digit-or-dot>+` group per
pass, so "a-1+-2+" normalizes to "a-1+", which normalizes again to "a". -/
theorem C10_normalize_not_idempotent_counterexample :
    (apply_fixups (apply_fixups "a-1+-2+" TOOL_FIXUPS) TOOL_FIXUPS ==
      apply_fixups "a-1+-2+" TOOL_FIXUPS) = false := by
  decide

/-- C10 (amended): tool-name normalization is idempotent on every tool name
in the Catalog: for every s in TOOLS, applying the ordered fixup rules twice
gives the same result as applying them once. -/
theorem C10_normalize_idempotent_on_catalog :
    ∀ s ∈ TOOLS,
      apply_fixups (apply_fixups s TOOL_FIXUPS) TOOL_FIXUPS =
        apply_fixups s TOOL_FIXUPS := by
  decide

/-- Witness for C10 (amended) at the catalog tool "gcc-ar". -/
theorem C10_normalize_idempotent_on_catalog_witness :
    apply_fixups (apply_fixups "gcc-ar" TOOL_FIXUPS) TOOL_FIXUPS =
      apply_fixups "gcc-ar" TOOL_FIXUPS :=
  C10_normalize_idempotent_on_catalog "gcc-ar" (by decide)

/-- C1: when the normalized architecture triple has no ARCHES entry, the run
prints the offending (normalized) triple, terminates with an uncaught
`AttributeError` raised by the first per-tool step before it touches the
filesystem, and leaves the filesystem exactly as it was: no wrapper artifact
is emitted and nothing is removed. -/
theorem C1_unresolved_arch_fatal (cfg : Config) (which : Which) (fs : FS)
    (h : dictGet ARCHES (apply_fixups cfg.arch ARCH_FIXUPS) = none) :
    (wrap cfg which fs).output =
      ["Arch " ++ apply_fixups cfg.arch ARCH_FIXUPS ++ " not found"] ∧
    (wrap cfg which fs).err = some PyErr.attributeError ∧
    ∀ p, (wrap cfg which fs).fs p = fs p := by
  have hloop : ∀ ts : List String, ts ≠ [] →
      wrapLoop cfg.arch none cfg which ts fs = (fs, some PyErr.attributeError) := by
    intro ts hne
    cases ts with
    | nil => exact absurd rfl hne
    | cons t ts2 => simp [wrapLoop, wrap_tool]
  simp only [wrap, h]
  cases hts : cfg.tools with
  | nil =>
    rw [hloop TOOLS (by simp [TOOLS])]
    simp
  | cons t ts2 =>
    rw [hloop (t :: ts2) (by simp)]
    simp

/-- Witness for C1 at the unknown triple "mips-linux-gnu". -/
theorem C1_unresolved_arch_fatal_witness :
    (wrap (Config.mk "mips-linux-gnu" [] false false)
        (fun _ => none) (fun _ => none)).output =
      ["Arch " ++
        apply_fixups (Config.mk "mips-linux-gnu" [] false false).arch ARCH_FIXUPS ++
        " not found"] ∧
    (wrap (Config.mk "mips-linux-gnu" [] false false)
        (fun _ => none) (fun _ => none)).err = some PyErr.attributeError ∧
    ∀ p, (wrap (Config.mk "mips-linux-gnu" [] false false)
        (fun _ => none) (fun _ => none)).fs p = (fun _ => none : FS) p :=
  C1_unresolved_arch_fatal (Config.mk "mips-linux-gnu" [] false false)
    (fun _ => none) (fun _ => none) (by decide)

/-- C6: a tool whose canonical name is blacklisted produces no artifact at
its wrapper path even when requested — the per-tool step removes whatever
was at that path and then returns, with no error. -/
theorem C6_blacklist_no_artifact (tool pfx w : String)
    (info : List (String × String)) (cfg : Config) (which : Which) (fs : FS)
    (hw : dictGet info "wraps" = some w)
    (hb : BLACKLIST.contains (apply_fixups tool TOOL_FIXUPS) = true) :
    (wrap_tool tool pfx (some info) cfg which fs).2 = none ∧
    (wrap_tool tool pfx (some info) cfg which fs).1 (toolPath pfx tool) = none := by
  have hb2 : apply_fixups tool TOOL_FIXUPS ∈ BLACKLIST := by simpa using hb
  simp [wrap_tool, hw, hb2, toolPath, fsSet]

/-- Witness for C6: "pkg-config" with a stale artifact present beforehand. -/
theorem C6_blacklist_no_artifact_witness :
    (wrap_tool "pkg-config" "i686-pc-linux-gnu"
        (some [("wraps", "x86_64-linux-gnu"), ("gcc_flags", "-m32")])
        (Config.mk "i686-pc-linux-gnu" ["pkg-config"] false false)
        (fun _ => none) (fun _ => some (Artifact.script "stale"))).2 = none ∧
    (wrap_tool "pkg-config" "i686-pc-linux-gnu"
        (some [("wraps", "x86_64-linux-gnu"), ("gcc_flags", "-m32")])
        (Config.mk "i686-pc-linux-gnu" ["pkg-config"] false false)
        (fun _ => none) (fun _ => some (Artifact.script "stale"))).1
      (toolPath "i686-pc-linux-gnu" "pkg-config") = none :=
  C6_blacklist_no_artifact "pkg-config" "i686-pc-linux-gnu" "x86_64-linux-gnu"
    [("wraps", "x86_64-linux-gnu"), ("gcc_flags", "-m32")]
    (Config.mk "i686-pc-linux-gnu" ["pkg-config"] false false)
    (fun _ => none) (fun _ => some (Artifact.script "stale"))
    (by decide) (by decide)

/-- C7: classification and the blacklist test read the canonical name while
the executable reference keeps the original name: "gcc-ar" normalizes to
"ar", and in plain mode its artifact is a script whose acknowledgment line
names "ar" (the canonical classification, flags empty) while its exec line
invokes `<wraps>-gcc-ar`, ending in "-gcc-ar". -/
theorem C7_classification_canonical_executable_original (pfx w : String)
    (info : List (String × String)) (cfg : Config) (which : Which) (fs : FS)
    (hw : dictGet info "wraps" = some w)
    (habs : cfg.absolute = false) (hsym : cfg.symlinks = false) :
    apply_fixups "gcc-ar" TOOL_FIXUPS = "ar" ∧
    (wrap_tool "gcc-ar" pfx (some info) cfg which fs).1 (toolPath pfx "gcc-ar") =
      some (Artifact.script
        (scriptContent (safe_msg "ar") (some (w ++ "-" ++ "gcc-ar")) "")) := by
  have hfix : apply_fixups "gcc-ar" TOOL_FIXUPS = "ar" := by decide
  have hbl2 : ("ar" : String) ∉ BLACKLIST := by decide
  have hfl : dictGet FLAGS_INFO "ar" = some (some "") := by decide
  refine ⟨hfix, ?_⟩
  simp [wrap_tool, hfix, hw, hbl2, hfl, habs, hsym, toolPath, fsSet]

/-- Witness for C7 with the x32 row as the arch info. -/
theorem C7_classification_canonical_executable_original_witness :
    apply_fixups "gcc-ar" TOOL_FIXUPS = "ar" ∧
    (wrap_tool "gcc-ar" "x86_64-linux-gnux32"
        (some [("wraps", "x86_64-linux-gnu"), ("gcc_flags", "-mx32")])
        (Config.mk "x86_64-linux-gnux32" ["gcc-ar"] false false)
        (fun _ => none) (fun _ => none)).1
      (toolPath "x86_64-linux-gnux32" "gcc-ar") =
      some (Artifact.script
        (scriptContent (safe_msg "ar") (some ("x86_64-linux-gnu" ++ "-" ++ "gcc-ar")) "")) :=
  C7_classification_canonical_executable_original "x86_64-linux-gnux32"
    "x86_64-linux-gnu" [("wraps", "x86_64-linux-gnu"), ("gcc_flags", "-mx32")]
    (Config.mk "x86_64-linux-gnux32" ["gcc-ar"] false false)
    (fun _ => none) (fun _ => none) (by decide) rfl rfl

/-- C3 (amended): for every tool whose canonical (normalized) name has no
known-safe classification entry and is not blacklisted, the per-tool step
emits — with no error and regardless of `--symlinks` — a script whose
warning line is `warning_msg` of the CANONICAL name (which embeds the fixed
feedback URL); the original name appears only in the executable reference
inside the exec line. -/
theorem C3_unknown_tool_warning_amended (tool pfx w : String)
    (info : List (String × String)) (cfg : Config) (which : Which) (fs : FS)
    (hw : dictGet info "wraps" = some w)
    (hun : (dictGet FLAGS_INFO (apply_fixups tool TOOL_FIXUPS)).join = none)
    (hbl : BLACKLIST.contains (apply_fixups tool TOOL_FIXUPS) = false) :
    ∃ e, (wrap_tool tool pfx (some info) cfg which fs).1 (toolPath pfx tool) =
        some (Artifact.script (scriptContent
          (warning_msg (apply_fixups tool TOOL_FIXUPS)) e "")) ∧
      (wrap_tool tool pfx (some info) cfg which fs).2 = none := by
  have hbl2 : apply_fixups tool TOOL_FIXUPS ∉ BLACKLIST := by simpa using hbl
  have hun2 : (dictGet FLAGS_INFO (apply_fixups tool TOOL_FIXUPS)).bind
      (fun a => a) = none := by simpa [Option.join] using hun
  refine ⟨if cfg.absolute || cfg.symlinks then which (w ++ "-" ++ tool)
          else some (w ++ "-" ++ tool), ?_, ?_⟩ <;>
    simp [wrap_tool, hw, hun2, hbl2, toolPath, fsSet]

/-- Witness for C3 (amended): tool "gold" under --symlinks with a failing
PATH lookup. -/
theorem C3_unknown_tool_warning_amended_witness :
    ∃ e, (wrap_tool "gold" "x86_64-linux-gnux32"
        (some [("wraps", "x86_64-linux-gnu"), ("gcc_flags", "-mx32")])
        (Config.mk "x86_64-linux-gnux32" ["gold"] false true)
        (fun _ => none) (fun _ => none)).1
        (toolPath "x86_64-linux-gnux32" "gold") =
      some (Artifact.script (scriptContent
        (warning_msg (apply_fixups "gold" TOOL_FIXUPS)) e "")) ∧
    (wrap_tool "gold" "x86_64-linux-gnux32"
        (some [("wraps", "x86_64-linux-gnu"), ("gcc_flags", "-mx32")])
        (Config.mk "x86_64-linux-gnux32" ["gold"] false true)
        (fun _ => none) (fun _ => none)).2 = none :=
  C3_unknown_tool_warning_amended "gold" "x86_64-linux-gnux32" "x86_64-linux-gnu"
    [("wraps", "x86_64-linux-gnu"), ("gcc_flags", "-mx32")]
    (Config.mk "x86_64-linux-gnux32" ["gold"] false true)
    (fun _ => none) (fun _ => none) (by decide) (by decide) (by decide)

/-- C5: under `--symlinks`, with the arch info row coming from the ARCHES
table and the canonical name not blacklisted: a SafeNoFlags tool (entry with
the empty flag string) whose binary resolves produces a symbolic link to the
resolved executable, while an Unknown tool (entry absent or None) or a
flag-bearing tool (entry naming a flag set) produces a script, never a
symlink. -/
theorem C5_symlink_only_for_safe_noflags (tool pfx a : String)
    (info : List (String × String)) (cfg : Config) (which : Which) (fs : FS)
    (ha : dictGet ARCHES a = some info)
    (hsym : cfg.symlinks = true)
    (hbl : BLACKLIST.contains (apply_fixups tool TOOL_FIXUPS) = false) :
    (∀ target, dictGet FLAGS_INFO (apply_fixups tool TOOL_FIXUPS) = some (some "") →
      which ("x86_64-linux-gnu-" ++ tool) = some target →
      (wrap_tool tool pfx (some info) cfg which fs).1 (toolPath pfx tool) =
        some (Artifact.symlink target)) ∧
    (((dictGet FLAGS_INFO (apply_fixups tool TOOL_FIXUPS)).join = none ∨
      (∃ fv, dictGet FLAGS_INFO (apply_fixups tool TOOL_FIXUPS) = some (some fv) ∧
        fv ≠ "")) →
      ∃ c, (wrap_tool tool pfx (some info) cfg which fs).1 (toolPath pfx tool) =
        some (Artifact.script c)) := by
  have hwraps : dictGet info "wraps" = some "x86_64-linux-gnu" := by
    rcases arches_info_cases a info ha with h | h <;> subst h <;> decide
  have hbl2 : apply_fixups tool TOOL_FIXUPS ∉ BLACKLIST := by simpa using hbl
  constructor
  · intro target hfi hwhich
    simp [wrap_tool, hwraps, hbl2, hfi, hsym, hwhich, toolPath, fsSet]
  · rintro (hun | ⟨fv, hfv, hne⟩)
    · have hun2 : (dictGet FLAGS_INFO (apply_fixups tool TOOL_FIXUPS)).bind
          (fun a => a) = none := by simpa [Option.join] using hun
      exact ⟨scriptContent (warning_msg (apply_fixups tool TOOL_FIXUPS))
        (which ("x86_64-linux-gnu" ++ "-" ++ tool)) "",
        by simp [wrap_tool, hwraps, hbl2, hun2, hsym, toolPath, fsSet]⟩
    · rcases flagsInfo_value_cases _ _ hfv with h0 | h0
      · exact absurd h0 hne
      · subst h0
        have hflags : dictGet info "gcc_flags" = some "-m32" ∨
            dictGet info "gcc_flags" = some "-mx32" := by
          rcases arches_info_cases a info ha with h | h <;> subst h
          · exact Or.inl (by decide)
          · exact Or.inr (by decide)
        have hm32 : ¬ (("-m32" : String) = "") := by decide
        have hmx32 : ¬ (("-mx32" : String) = "") := by decide
        have hgne : ¬ (("gcc_flags" : String) = "") := by decide
        rcases hflags with h2 | h2
        · exact ⟨scriptContent (safe_msg (apply_fixups tool TOOL_FIXUPS))
            (which ("x86_64-linux-gnu" ++ "-" ++ tool)) "-m32",
            by simp [wrap_tool, hwraps, hbl2, hfv, h2, hsym, hm32, hgne, toolPath, fsSet]⟩
        · exact ⟨scriptContent (safe_msg (apply_fixups tool TOOL_FIXUPS))
            (which ("x86_64-linux-gnu" ++ "-" ++ tool)) "-mx32",
            by simp [wrap_tool, hwraps, hbl2, hfv, h2, hsym, hmx32, hgne, toolPath, fsSet]⟩

/-- `wrap_tool` never reads the incoming filesystem: each run either fails
before the removal at line 208 and leaves the filesystem untouched, fails
after it having only removed the wrapper path, or succeeds having set the
wrapper path to a value that does not depend on the prior filesystem. -/
theorem wrap_tool_cases (tool pfx : String)
    (info? : Option (List (String × String))) (cfg : Config) (which : Which) :
    (∃ e, ∀ fs : FS, wrap_tool tool pfx info? cfg which fs = (fs, some e)) ∨
    (∃ e, ∀ fs : FS, wrap_tool tool pfx info? cfg which fs =
      (fsSet fs (toolPath pfx tool) none, some e)) ∨
    (∃ a, ∀ fs : FS, wrap_tool tool pfx info? cfg which fs =
      (fsSet fs (toolPath pfx tool) a, none)) := by
  cases info? with
  | none => exact Or.inl ⟨PyErr.attributeError, fun fs => rfl⟩
  | some info =>
    cases hw : dictGet info "wraps" with
    | none => exact Or.inl ⟨PyErr.keyError, fun fs => by simp [wrap_tool, hw]⟩
    | some wraps =>
      by_cases hbl : apply_fixups tool TOOL_FIXUPS ∈ BLACKLIST
      · exact Or.inr (Or.inr ⟨none,
          fun fs => by simp [wrap_tool, hw, hbl, toolPath]⟩)
      · cases hfv : (dictGet FLAGS_INFO (apply_fixups tool TOOL_FIXUPS)).bind
            (fun a => a) with
        | none =>
          exact Or.inr (Or.inr ⟨some (Artifact.script (scriptContent
              (warning_msg (apply_fixups tool TOOL_FIXUPS))
              (if cfg.absolute || cfg.symlinks then which (wraps ++ "-" ++ tool)
               else some (wraps ++ "-" ++ tool)) "")),
            fun fs => by
              simp [wrap_tool, hw, hbl, hfv, toolPath, fsSet_fsSet]⟩)
        | some fv =>
          by_cases hfe : fv = ""
          · subst hfe
            cases hsym : cfg.symlinks with
            | true =>
              cases hwh : which (wraps ++ "-" ++ tool) with
              | none =>
                exact Or.inr (Or.inl ⟨PyErr.typeError,
                  fun fs => by
                    simp [wrap_tool, hw, hbl, hfv, hsym, hwh, toolPath]⟩)
              | some target =>
                exact Or.inr (Or.inr ⟨some (Artifact.symlink target),
                  fun fs => by
                    simp [wrap_tool, hw, hbl, hfv, hsym, hwh, toolPath, fsSet_fsSet]⟩)
            | false =>
              exact Or.inr (Or.inr ⟨some (Artifact.script (scriptContent
                  (safe_msg (apply_fixups tool TOOL_FIXUPS))
                  (if cfg.absolute || cfg.symlinks then which (wraps ++ "-" ++ tool)
                   else some (wraps ++ "-" ++ tool)) "")),
                fun fs => by
                  simp [wrap_tool, hw, hbl, hfv, hsym, toolPath, fsSet_fsSet]⟩)
          · cases hfl : dictGet info fv with
            | none =>
              exact Or.inr (Or.inl ⟨PyErr.keyError,
                fun fs => by
                  simp [wrap_tool, hw, hbl, hfv, hfe, hfl, toolPath]⟩)
            | some fl =>
              by_cases hfle : fl = ""
              · subst hfle
                cases hsym : cfg.symlinks with
                | true =>
                  cases hwh : which (wraps ++ "-" ++ tool) with
                  | none =>
                    exact Or.inr (Or.inl ⟨PyErr.typeError,
                      fun fs => by
                        simp [wrap_tool, hw, hbl, hfv, hfe, hfl, hsym, hwh, toolPath]⟩)
                  | some target =>
                    exact Or.inr (Or.inr ⟨some (Artifact.symlink target),
                      fun fs => by
                        simp [wrap_tool, hw, hbl, hfv, hfe, hfl, hsym, hwh, toolPath,
                          fsSet_fsSet]⟩)
                | false =>
                  exact Or.inr (Or.inr ⟨some (Artifact.script (scriptContent
                      (safe_msg (apply_fixups tool TOOL_FIXUPS))
                      (if cfg.absolute || cfg.symlinks then which (wraps ++ "-" ++ tool)
                       else some (wraps ++ "-" ++ tool)) "")),
                    fun fs => by
                      simp [wrap_tool, hw, hbl, hfv, hfe, hfl, hsym, toolPath,
                        fsSet_fsSet]⟩)
              · exact Or.inr (Or.inr ⟨some (Artifact.script (scriptContent
                    (safe_msg (apply_fixups tool TOOL_FIXUPS))
                    (if cfg.absolute || cfg.symlinks then which (wraps ++ "-" ++ tool)
                     else some (wraps ++ "-" ++ tool)) fl)),
                  fun fs => by
                    simp [wrap_tool, hw, hbl, hfv, hfe, hfl, hfle, toolPath,
                      fsSet_fsSet]⟩)

/-- Whether a per-tool step raises does not depend on the filesystem. -/
theorem wrap_tool_snd_const (tool pfx : String)
    (info? : Option (List (String × String))) (cfg : Config) (which : Which)
    (fs fs2 : FS) :
    (wrap_tool tool pfx info? cfg which fs).2 =
      (wrap_tool tool pfx info? cfg which fs2).2 := by
  rcases wrap_tool_cases tool pfx info? cfg which with ⟨e, h⟩ | ⟨e, h⟩ | ⟨a, h⟩ <;>
    rw [h fs, h fs2]

/-- A successful per-tool step overwrites exactly the wrapper path, with a
value independent of the prior filesystem. -/
theorem wrap_tool_ok_update (tool pfx : String)
    (info? : Option (List (String × String))) (cfg : Config) (which : Which)
    (fs : FS) (h : (wrap_tool tool pfx info? cfg which fs).2 = none) :
    wrap_tool tool pfx info? cfg which fs =
      (fsSet fs (toolPath pfx tool) (toolFinal tool pfx info? cfg which), none) := by
  rcases wrap_tool_cases tool pfx info? cfg which with ⟨e, hc⟩ | ⟨e, hc⟩ | ⟨a, hc⟩
  · rw [hc fs] at h
    simp at h
  · rw [hc fs] at h
    simp at h
  · have ha : toolFinal tool pfx info? cfg which = a := by
      unfold toolFinal
      rw [hc (fun _ => none)]
      simp [fsSet]
    rw [hc fs, ha]

/-- The artifact the run leaves at path `p` after processing the tool list:
the `toolFinal` of the LAST tool whose wrapper path is `p`, if any. -/
def lastVal (pfx : String) (info? : Option (List (String × String)))
    (cfg : Config) (which : Which) (p : String) :
    List String → Option (Option Artifact)
  | [] => none
  | t :: ts =>
    match lastVal pfx info? cfg which p ts with
    | some v => some v
    | none =>
      if p = toolPath pfx t then some (toolFinal t pfx info? cfg which) else none

/-- If the loop succeeds from some starting filesystem, it succeeds from
every starting filesystem, and the result holds `lastVal` at each path a
processed tool owns and the starting content everywhere else. -/
theorem wrapLoop_ok (pfx : String) (info? : Option (List (String × String)))
    (cfg : Config) (which : Which) :
    ∀ (ts : List String) (fs : FS),
      (wrapLoop pfx info? cfg which ts fs).2 = none →
      ∀ fs2 : FS, (wrapLoop pfx info? cfg which ts fs2).2 = none ∧
        ∀ p, (wrapLoop pfx info? cfg which ts fs2).1 p =
          (match lastVal pfx info? cfg which p ts with
           | some v => v
           | none => fs2 p) := by
  intro ts
  induction ts with
  | nil =>
    intro fs h fs2
    exact ⟨rfl, fun p => rfl⟩
  | cons t ts ih =>
    intro fs h fs2
    cases hr : (wrap_tool t pfx info? cfg which fs).2 with
    | some e => simp [wrapLoop, hr] at h
    | none =>
      have h2 : (wrapLoop pfx info? cfg which ts
          (wrap_tool t pfx info? cfg which fs).1).2 = none := by
        simpa [wrapLoop, hr] using h
      have hr2 : (wrap_tool t pfx info? cfg which fs2).2 = none := by
        rw [wrap_tool_snd_const t pfx info? cfg which fs2 fs]
        exact hr
      obtain ⟨hok, hval⟩ :=
        ih (wrap_tool t pfx info? cfg which fs).1 h2
          (wrap_tool t pfx info? cfg which fs2).1
      have hstep : wrapLoop pfx info? cfg which (t :: ts) fs2 =
          wrapLoop pfx info? cfg which ts (wrap_tool t pfx info? cfg which fs2).1 := by
        simp [wrapLoop, hr2]
      refine ⟨by rw [hstep]; exact hok, ?_⟩
      intro p
      rw [hstep, hval p]
      have hupd := wrap_tool_ok_update t pfx info? cfg which fs2 hr2
      cases hlv : lastVal pfx info? cfg which p ts with
      | some v => simp [lastVal, hlv]
      | none =>
        simp only [lastVal, hlv, hupd]
        by_cases hp : p = toolPath pfx t <;> simp [fsSet, hp]

/-- C9: re-running the generator with identical inputs is idempotent at the
level the model captures (content and link targets; a script's execute
permission is implied by its artifact kind): if a run succeeds, running
again on the filesystem it produced succeeds and changes nothing. -/
theorem C9_rerun_idempotent (cfg : Config) (which : Which) (fs : FS)
    (h : (wrap cfg which fs).err = none) :
    (wrap cfg which (wrap cfg which fs).fs).err = none ∧
    ∀ p, (wrap cfg which (wrap cfg which fs).fs).fs p = (wrap cfg which fs).fs p := by
  have herr : ∀ g : FS, (wrap cfg which g).err =
      (wrapLoop cfg.arch (dictGet ARCHES (apply_fixups cfg.arch ARCH_FIXUPS)) cfg which
        (match cfg.tools with | [] => TOOLS | ts => ts) g).2 := fun g => rfl
  have hfst : ∀ g : FS, (wrap cfg which g).fs =
      (wrapLoop cfg.arch (dictGet ARCHES (apply_fixups cfg.arch ARCH_FIXUPS)) cfg which
        (match cfg.tools with | [] => TOOLS | ts => ts) g).1 := fun g => rfl
  rw [herr] at h
  obtain ⟨hok2, hval2⟩ :=
    wrapLoop_ok cfg.arch (dictGet ARCHES (apply_fixups cfg.arch ARCH_FIXUPS)) cfg which
      (match cfg.tools with | [] => TOOLS | ts => ts) fs h ((wrap cfg which fs).fs)
  obtain ⟨hok1, hval1⟩ :=
    wrapLoop_ok cfg.arch (dictGet ARCHES (apply_fixups cfg.arch ARCH_FIXUPS)) cfg which
      (match cfg.tools with | [] => TOOLS | ts => ts) fs h fs
  constructor
  · rw [herr]
    exact hok2
  · intro p
    rw [hfst ((wrap cfg which fs).fs), hval2 p]
    have hv1 := hval1 p
    cases hlv : lastVal cfg.arch (dictGet ARCHES (apply_fixups cfg.arch ARCH_FIXUPS))
        cfg which p (match cfg.tools with | [] => TOOLS | ts => ts) with
    | some v =>
      simp only [hlv] at hv1 ⊢
      rw [hfst fs, hv1]
    | none =>
      simp only [hlv]

/-- Witness for C9: a successful run for "ar" on i686-pc-linux-gnu. -/
theorem C9_rerun_idempotent_witness :
    (wrap (Config.mk "i686-pc-linux-gnu" ["ar"] false false) (fun _ => none)
      ((wrap (Config.mk "i686-pc-linux-gnu" ["ar"] false false) (fun _ => none)
        (fun _ => none)).fs)).err = none ∧
    ∀ p, (wrap (Config.mk "i686-pc-linux-gnu" ["ar"] false false) (fun _ => none)
      ((wrap (Config.mk "i686-pc-linux-gnu" ["ar"] false false) (fun _ => none)
        (fun _ => none)).fs)).fs p =
      (wrap (Config.mk "i686-pc-linux-gnu" ["ar"] false false) (fun _ => none)
        (fun _ => none)).fs p :=
  C9_rerun_idempotent (Config.mk "i686-pc-linux-gnu" ["ar"] false false)
    (fun _ => none) (fun _ => none) (by decide)

/-- Witness for C5: "ar" resolves and gets a symlink; also exercises the
script half at the flag-bearing tool "gcc". -/
theorem C5_symlink_only_for_safe_noflags_witness :
    (wrap_tool "ar" "i686-pc-linux-gnu"
        (some [("wraps", "x86_64-linux-gnu"), ("gcc_flags", "-m32")])
        (Config.mk "i686-pc-linux-gnu" ["ar"] false true)
        (fun _ => some "/usr/bin/x86_64-linux-gnu-ar") (fun _ => none)).1
      (toolPath "i686-pc-linux-gnu" "ar") =
      some (Artifact.symlink "/usr/bin/x86_64-linux-gnu-ar") :=
  (C5_symlink_only_for_safe_noflags "ar" "i686-pc-linux-gnu" "i386-linux-gnu"
      [("wraps", "x86_64-linux-gnu"), ("gcc_flags", "-m32")]
      (Config.mk "i686-pc-linux-gnu" ["ar"] false true)
      (fun _ => some "/usr/bin/x86_64-linux-gnu-ar") (fun _ => none)
      (by decide) rfl (by decide)).1
    "/usr/bin/x86_64-linux-gnu-ar" (by decide) rfl

end MakeWrappers
